import Mathlib

/-!
Verification of the `design-patterns-interview-prep` C++ repository (cpp edition):
a shallow embedding of `src/cpp/main.cpp` and the pattern headers
`builder.hpp`, `factory.hpp`, `singleton.hpp`, together with theorems about
the menu dispatcher, the builder, the factory and the singleton.

Strings printed with `std::cout` are modelled as Lean `String`s concatenated
in program order; `std::cin` is modelled as a character stream with a fail
bit (`IStream`); `std::unique_ptr` ownership is modelled with `Option`;
C++ exceptions are modelled with `Except`.
-/

namespace DP

/-! ## String utilities (property language) -/

/-- `String.mk (List.replicate n c)` models `std::string(n, c)`. -/
def repChar (n : Nat) (c : Char) : String := String.mk (List.replicate n c)

/-- `toString` on `Int`, named to avoid shadowing inside `HttpRequest.toString`. -/
def intStr (i : Int) : String := toString i

/-- Does the pattern occur at the head of the character list? -/
def startsWithChars : List Char → List Char → Bool
  | [], _ => true
  | _ :: _, [] => false
  | a :: as, b :: bs => a == b && startsWithChars as bs

/-- Does the pattern `p` occur anywhere in the character list? -/
def containsChars (p : List Char) : List Char → Bool
  | [] => p.isEmpty
  | c :: cs => startsWithChars p (c :: cs) || containsChars p cs

/-- Characters of `s`, uppercased (for case-insensitive matching). -/
def upChars (s : String) : List Char := s.data.map Char.toUpper

/-- Case-insensitive substring test: `p` occurs in `s` up to letter case. -/
def containsCI (s p : String) : Bool := containsChars (upChars p) (upChars s)

/-- `p` occurs verbatim (case-sensitively) as a substring of `s`. -/
def ContainsStr (s p : String) : Prop := ∃ a b : String, s = a ++ (p ++ b)

/-! ## Builder pattern (`src/cpp/patterns/builder.hpp`)

`HttpRequest` is the product; `HttpRequestBuilder` owns a
`std::unique_ptr<HttpRequest>` (modelled `Option HttpRequest`): `build()`
moves the pointer out, leaving the builder's pointer null, and every setter
dereferences the pointer (undefined behavior on null, modelled as an
`Except.error`). -/

structure HttpRequest where
  method_ : String
  url_ : String
  body_ : String
  headers_ : List (String × String)
  timeout_ : Int
deriving Repr, DecidableEq

/-- The `HttpRequest()` constructor: `method_("GET"), timeout_(30)`. -/
def HttpRequest.new : HttpRequest :=
  { method_ := "GET", url_ := "", body_ := "", headers_ := [], timeout_ := 30 }

def HttpRequest.setMethod (r : HttpRequest) (m : String) : HttpRequest :=
  { r with method_ := m }

def HttpRequest.setUrl (r : HttpRequest) (u : String) : HttpRequest :=
  { r with url_ := u }

def HttpRequest.setBody (r : HttpRequest) (b : String) : HttpRequest :=
  { r with body_ := b }

def HttpRequest.addHeader (r : HttpRequest) (k v : String) : HttpRequest :=
  { r with headers_ := r.headers_ ++ [(k, v)] }

def HttpRequest.setTimeout (r : HttpRequest) (t : Int) : HttpRequest :=
  { r with timeout_ := t }

/-- The header-printing loop of `HttpRequest::toString`. -/
def headersStr : List (String × String) → String
  | [] => ""
  | (k, v) :: t => "    " ++ (k ++ (": " ++ (v ++ ("\n" ++ headersStr t))))

/-- `HttpRequest::toString` (the `std::ostringstream` rendering). -/
def HttpRequest.toString (r : HttpRequest) : String :=
  "HTTP Request:\n  Method: " ++ (r.method_ ++
  ("\n  URL: " ++ (r.url_ ++
  ("\n  Timeout: " ++ (intStr r.timeout_ ++
  ("s\n  Headers:\n" ++ (headersStr r.headers_ ++
  (if r.body_ = "" then "" else "  Body: " ++ (r.body_ ++ "\n")))))))))

structure HttpRequestBuilder where
  request_ : Option HttpRequest
deriving Repr, DecidableEq

/-- `HttpRequestBuilder()` allocates a fresh default `HttpRequest`. -/
def HttpRequestBuilder.new : HttpRequestBuilder := ⟨some HttpRequest.new⟩

/-- Dereferencing a moved-from (null) `unique_ptr` is undefined behavior in
C++; the model signals it as this error. -/
def nullDeref : String := "null pointer dereference"

def HttpRequestBuilder.method (b : HttpRequestBuilder) (m : String) :
    Except String HttpRequestBuilder :=
  match b.request_ with
  | none => .error nullDeref
  | some r => .ok ⟨some (r.setMethod m)⟩

def HttpRequestBuilder.url (b : HttpRequestBuilder) (u : String) :
    Except String HttpRequestBuilder :=
  match b.request_ with
  | none => .error nullDeref
  | some r => .ok ⟨some (r.setUrl u)⟩

def HttpRequestBuilder.body (b : HttpRequestBuilder) (s : String) :
    Except String HttpRequestBuilder :=
  match b.request_ with
  | none => .error nullDeref
  | some r => .ok ⟨some (r.setBody s)⟩

def HttpRequestBuilder.header (b : HttpRequestBuilder) (k v : String) :
    Except String HttpRequestBuilder :=
  match b.request_ with
  | none => .error nullDeref
  | some r => .ok ⟨some (r.addHeader k v)⟩

def HttpRequestBuilder.timeout (b : HttpRequestBuilder) (t : Int) :
    Except String HttpRequestBuilder :=
  match b.request_ with
  | none => .error nullDeref
  | some r => .ok ⟨some (r.setTimeout t)⟩

/-- `build()` is `return std::move(request_)`: the stored pointer is moved
into the result and the builder's `request_` becomes null. -/
def HttpRequestBuilder.build (b : HttpRequestBuilder) :
    Option HttpRequest × HttpRequestBuilder :=
  (b.request_, ⟨none⟩)

/-! ## Factory pattern (`src/cpp/patterns/factory.hpp`)

The processor class hierarchy is closed (three concrete products), so it is
embedded as an inductive; `createProcessor`'s `throw std::invalid_argument`
is modelled with `Except.error`. -/

/-- C++ exceptions reaching `main`; `std::invalid_argument::what()` returns
the message it was constructed with. -/
inductive CppExn where
  | invalidArg (msg : String)
deriving Repr, DecidableEq

def CppExn.what : CppExn → String
  | .invalidArg m => m

inductive PaymentProcessorKind where
  | creditCard
  | payPal
  | bitcoin
deriving Repr, DecidableEq

/-- The `getProcessorName` override of each concrete product. -/
def getProcessorName : PaymentProcessorKind → String
  | .creditCard => "Credit Card Processor"
  | .payPal => "PayPal Processor"
  | .bitcoin => "Bitcoin Processor"

/-- The `processPayment` override of each concrete product (its printed
text); `amountStr` is the `std::cout` rendering of the `double` amount. -/
def processPaymentOut (k : PaymentProcessorKind) (amountStr : String) : String :=
  match k with
  | .creditCard =>
    "💳 Processing credit card payment: $" ++ (amountStr ++
    "\n   • Validating card number...\n   • Checking credit limit...\n   • Processing transaction...\n   ✅ Payment successful!\n")
  | .payPal =>
    "💰 Processing PayPal payment: $" ++ (amountStr ++
    "\n   • Redirecting to PayPal...\n   • Authenticating user...\n   • Processing transaction...\n   ✅ Payment successful!\n")
  | .bitcoin =>
    "₿ Processing Bitcoin payment: $" ++ (amountStr ++
    "\n   • Converting to BTC...\n   • Broadcasting transaction...\n   • Waiting for confirmations...\n   ✅ Payment successful!\n")

/-- `PaymentProcessorFactory::createProcessor`. -/
def createProcessor (type : String) : Except CppExn PaymentProcessorKind :=
  if type = "credit_card" then .ok .creditCard
  else if type = "paypal" then .ok .payPal
  else if type = "bitcoin" then .ok .bitcoin
  else .error (.invalidArg ("Unknown payment processor type: " ++ type))

/-- `PaymentProcessorFactory::getAvailableProcessors`. -/
def getAvailableProcessors : List String := ["credit_card", "paypal", "bitcoin"]

/-! ## Singleton pattern (`src/cpp/patterns/singleton.hpp`) -/

structure ConfigurationManager where
  appName_ : String
  version_ : String
  debugMode_ : Bool
deriving Repr, DecidableEq

/-- The private constructor: `appName_("MyApp"), version_("1.0.0"),
debugMode_(false)`. -/
def ConfigurationManager.init : ConfigurationManager :=
  { appName_ := "MyApp", version_ := "1.0.0", debugMode_ := false }

/-- The text the private constructor prints when it runs. -/
def ctorMsg : String := "🔧 ConfigurationManager initialized\n"

/-- Address of the function-local static `instance`: a single fixed storage
location for the whole process lifetime. -/
def instanceAddr : Nat := 0

/-- `getInstance`. C++11 guarantees the initialization of the local static
runs exactly once even under concurrent first access, so the transition is
modelled as one atomic step on the process-wide slot `g`. Returns the
instance value, the returned reference (its address) and whether this call
ran the constructor; the new slot contents is `some` of the returned
value. -/
def ConfigurationManager.getInstance (g : Option ConfigurationManager) :
    ConfigurationManager × Nat × Bool :=
  match g with
  | none => (ConfigurationManager.init, instanceAddr, true)
  | some c => (c, instanceAddr, false)

/-- Setters/getters acquire `mutex_` for the whole field access, so each is
one atomic step on the instance. -/
def ConfigurationManager.setAppName (c : ConfigurationManager) (name : String) :
    ConfigurationManager := { c with appName_ := name }

def ConfigurationManager.getAppName (c : ConfigurationManager) : String :=
  c.appName_

def ConfigurationManager.setVersion (c : ConfigurationManager) (version : String) :
    ConfigurationManager := { c with version_ := version }

def ConfigurationManager.getVersion (c : ConfigurationManager) : String :=
  c.version_

def ConfigurationManager.setDebugMode (c : ConfigurationManager) (debug : Bool) :
    ConfigurationManager := { c with debugMode_ := debug }

def ConfigurationManager.isDebugMode (c : ConfigurationManager) : Bool :=
  c.debugMode_

/-- `displayConfig`'s printed text. -/
def ConfigurationManager.displayConfig (c : ConfigurationManager) : String :=
  "⚙️  Configuration:\n   App Name: " ++ (c.appName_ ++
  ("\n   Version: " ++ (c.version_ ++
  ("\n   Debug Mode: " ++ ((if c.debugMode_ then "ON" else "OFF") ++ "\n")))))

/-- `n` successive `getInstance` calls (each call is one atomic step, so any
interleaving of concurrent callers is some such sequence): final slot
contents, the addresses returned to the callers in order, and how many of
the calls ran the constructor. -/
def runGets : Nat → Option ConfigurationManager →
    Option ConfigurationManager × List Nat × Nat
  | 0, g => (g, [], 0)
  | n + 1, g =>
    match ConfigurationManager.getInstance g with
    | (c, r, b) =>
      match runGets n (some c) with
      | (g2, rs, k) => (g2, r :: rs, (if b then 1 else 0) + k)

/-- A reference returned by `getInstance` aliases the unique static
instance, so a setter called through it updates the process-wide slot. -/
def writeAppName (g : Option ConfigurationManager) (v : String) :
    Option ConfigurationManager :=
  g.map (fun c => c.setAppName v)

/-! ## Demo outputs (`Patterns::demoBuilder`, `demoFactory`, `demoSingleton`) -/

def builderInsights : String :=
  "💡 INTERVIEW INSIGHTS:\n   • Builder pattern provides fluent, readable API\n   • Separates construction logic from representation\n   • Allows step-by-step validation during build\n   • Better than telescoping constructors\n   • Can create different representations from same builder\n\n🎯 WHEN TO USE:\n   • Object has many optional parameters\n   • Need to construct objects step-by-step\n   • Want to enforce immutability after construction\n   • Complex validation required during construction\n"

/-- The first fluent chain of `demoBuilder` (a POST request). -/
def demoBuilder_request1 : Except String HttpRequestBuilder :=
  (((((HttpRequestBuilder.new.method "POST").bind
      (fun b => b.url "https://api.example.com/users")).bind
      (fun b => b.header "Content-Type" "application/json")).bind
      (fun b => b.header "Authorization" "Bearer token123")).bind
      (fun b => b.body "\x7b\"name\":\"John\",\"email\":\"john@example.com\"\x7d")).bind
      (fun b => b.timeout 60)

/-- The second fluent chain of `demoBuilder` (a GET request). -/
def demoBuilder_request2 : Except String HttpRequestBuilder :=
  ((HttpRequestBuilder.new.method "GET").bind
    (fun b => b.url "https://api.example.com/users/123")).bind
    (fun b => b.header "Accept" "application/json")

/-- `build()` then `toString()` on a fluent chain. The null/error branches
are unreachable in the demo: each chain moves out of a freshly constructed
builder exactly once. -/
def builtReqStr (e : Except String HttpRequestBuilder) : String :=
  match e with
  | .ok b =>
    match b.build.1 with
    | some r => r.toString
    | none => ""
  | .error _ => ""

def demoBuilder_out : String :=
  "=== BUILDER PATTERN DEMO ===\n\n" ++
  ("📝 Building a complex HTTP request with fluent interface:\n\n" ++
  (builtReqStr demoBuilder_request1 ++ ("\n" ++
  ("✅ Built complex object with fluent interface!\n\n" ++
  ("📝 Building a simple GET request:\n\n" ++
  (builtReqStr demoBuilder_request2 ++ ("\n" ++ builderInsights)))))))

def factoryInsights : String :=
  "💡 INTERVIEW INSIGHTS:\n   • Factory encapsulates object creation logic\n   • Client doesn\x27t need to know concrete classes\n   • Easy to add new product types without modifying client\n   • Promotes loose coupling and testability\n   • Can use abstract factory for families of related objects\n\n🎯 WHEN TO USE:\n   • Don\x27t know exact types ahead of time\n   • Want to provide library/framework extension points\n   • Need to delegate instantiation to subclasses\n   • Want to manage/control object creation process\n"

/-- The `for (const auto& method : paymentMethods)` loop of `demoFactory`;
`"99.99"` is the `std::cout` rendering of `amount = 99.99`. An exception
from `createProcessor` would propagate out of the loop (unreachable here:
the list holds only registered types). -/
def factoryLoopOut : List String → Except CppExn String
  | [] => .ok ""
  | m :: t =>
    match createProcessor m with
    | .error e => .error e
    | .ok p =>
      match factoryLoopOut t with
      | .error e => .error e
      | .ok rest =>
        .ok ("Creating processor for: " ++ (m ++ ("\n" ++
             ("Processor created: " ++ (getProcessorName p ++ ("\n\n" ++
             (processPaymentOut p "99.99" ++ ("\n" ++
             (repChar 50 '-' ++ ("\n\n" ++ rest))))))))))

def demoFactory_out : String :=
  "=== FACTORY PATTERN DEMO ===\n\n" ++
  ("💼 Payment Processing System\n\n" ++
  ((match factoryLoopOut ["credit_card", "paypal", "bitcoin"] with
    | .ok s => s
    | .error _ => "") ++ factoryInsights))

def singletonInsights : String :=
  "\n💡 INTERVIEW INSIGHTS:\n   • Meyer\x27s Singleton (C++11) is thread-safe by default\n   • Static local variable ensures single instance\n   • Lazy initialization - created on first use\n   • Use mutex for thread-safe member access\n   • Consider dependency injection as alternative\n\n⚠️  CAUTIONS:\n   • Can become anti-pattern if overused\n   • Makes unit testing harder (global state)\n   • Hidden dependencies between classes\n   • Consider alternatives: DI, static methods\n"

/-- `demoSingleton` over the process-wide slot `g`; `addr` is the printed
runtime address of the static instance (`&config1`, equal to `&config2`
since both reference the same object). Returns the printed text and the new
slot contents. -/
def demoSingleton_run (g : Option ConfigurationManager) (addr : String) :
    String × Option ConfigurationManager :=
  match ConfigurationManager.getInstance g with
  | (config1, _r1, ran1) =>
    let config1m :=
      ((config1.setAppName "Design Patterns Demo").setVersion "2.0.0").setDebugMode true
    match ConfigurationManager.getInstance (some config1m) with
    | (config2, _r2, ran2) =>
      ("=== SINGLETON PATTERN DEMO ===\n\n" ++
       ("📝 Accessing singleton instance (first time):\n" ++
       ((if ran1 then ctorMsg else "") ++
       (config1.displayConfig ++
       ("\n📝 Modifying configuration:\n" ++
       ("\n📝 Accessing singleton instance (second time):\n" ++
       ((if ran2 then ctorMsg else "") ++
       (config2.displayConfig ++
       ("\n✅ Both references point to the same instance!\n" ++
       ("   Address of config1: " ++ (addr ++
       ("\n   Address of config2: " ++ (addr ++
       ("\n" ++ singletonInsights))))))))))))),
       some config2)

/-- Modelled from the spec: the demo bodies for patterns 4-15
(`observer.hpp`, `strategy.hpp`, `command.hpp`, `decorator.hpp`,
`adapter.hpp`, `facade.hpp`, `template_method.hpp`, `proxy.hpp`,
`visitor.hpp`, `memento.hpp`, `chain_of_responsibility.hpp`, `state.hpp`)
are not under `src/`; §8 of the spec requires each demo's printed output to
contain its pattern's name, so each is modelled as printing the banner the
three in-repo demos print. -/
def specDemoBanner (nameUpper : String) : String :=
  "=== " ++ (nameUpper ++ " DEMO ===\n")

def demoObserver_out : String := specDemoBanner "OBSERVER PATTERN"

def demoStrategy_out : String := specDemoBanner "STRATEGY PATTERN"

def demoCommand_out : String := specDemoBanner "COMMAND PATTERN"

def demoDecorator_out : String := specDemoBanner "DECORATOR PATTERN"

def demoAdapter_out : String := specDemoBanner "ADAPTER PATTERN"

def demoFacade_out : String := specDemoBanner "FACADE PATTERN"

def demoTemplateMethod_out : String := specDemoBanner "TEMPLATE METHOD PATTERN"

def demoProxy_out : String := specDemoBanner "PROXY PATTERN"

def demoVisitor_out : String := specDemoBanner "VISITOR PATTERN"

def demoMemento_out : String := specDemoBanner "MEMENTO PATTERN"

def demoChainOfResponsibility_out : String :=
  specDemoBanner "CHAIN OF RESPONSIBILITY PATTERN"

def demoState_out : String := specDemoBanner "STATE PATTERN"

/-! ## Menu dispatcher (`src/cpp/main.cpp`, `DesignPatternsMenu`) -/

def natStr (n : Nat) : String := toString n

/-- `displayHeader`'s printed text. -/
def headerOut : String :=
  "\n" ++ (repChar 80 '=' ++
  ("\n🚀 DESIGN PATTERNS INTERVIEW PREP - C++ EDITION 🚀\n" ++
  (repChar 80 '=' ++
  ("\nMaster the most common design patterns in C++!\nEach pattern includes real-world examples and modern C++ features.\n" ++
  (repChar 80 '=' ++ "\n")))))

/-- `displayMenu`'s printed text. -/
def menuOut : String :=
  "\n📚 AVAILABLE PATTERNS:\n" ++ (repChar 50 '-' ++
  ("\n1.  Builder Pattern - Complex Object Construction\n2.  Factory Pattern - Object Creation\n3.  Singleton Pattern - Single Instance Management\n4.  Observer Pattern - Event System & Notifications\n5.  Strategy Pattern - Algorithm Selection\n6.  Command Pattern - Undo/Redo & Transactions\n7.  Decorator Pattern - Dynamic Behavior\n8.  Adapter Pattern - Legacy Integration\n9.  Facade Pattern - Simplified Interface\n10. Template Method Pattern - Algorithm Skeleton\n11. Proxy Pattern - Lazy Loading\n12. Visitor Pattern - Operations on Structures\n13. Memento Pattern - State Restoration\n14. Chain of Responsibility - Request Handling\n15. State Pattern - Behavior Based on State\n16. 📖 Interview Tips & Common Questions\n17. 🚪 Exit\n" ++
  (repChar 50 '-' ++ "\n")))

/-- The `tips` vector of `displayInterviewTips`. -/
def tipsLines : List String :=
  ["🎯 Always explain the problem the pattern solves",
   "💡 Provide real-world examples from your experience",
   "🔧 Show how to implement the pattern step by step",
   "⚠️ Discuss trade-offs and when NOT to use the pattern",
   "🚀 Mention performance implications and alternatives",
   "🧪 Be ready to handle edge cases and error scenarios"]

/-- The `questions` vector of `displayInterviewTips`. -/
def questionLines : List String :=
  ["How would you test this pattern?",
   "What are the performance implications?",
   "How does this compare to [other pattern]?",
   "What if you need to handle [specific edge case]?",
   "How would you implement this in a distributed system?",
   "What are the memory implications?"]

/-- The range-for over `tips`. -/
def tipsLoop : List String → String
  | [] => ""
  | t :: r => "   " ++ (t ++ ("\n" ++ tipsLoop r))

/-- The indexed loop over `questions` (printing `i + 1`, so started at 1). -/
def questionsLoop (i : Nat) : List String → String
  | [] => ""
  | q :: r => "   " ++ (natStr i ++ (". " ++ (q ++ ("\n" ++ questionsLoop (i + 1) r))))

/-- `displayInterviewTips`'s printed text. -/
def displayInterviewTips_out : String :=
  "\n" ++ (repChar 60 '=' ++
  ("\n📖 INTERVIEW TIPS & STRATEGIES\n" ++
  (repChar 60 '=' ++
  ("\n\n💡 Key Interview Tips:\n" ++
  (tipsLoop tipsLines ++
  ("\n🔄 Common Follow-up Questions:\n" ++
  (questionsLoop 1 questionLines ++
  ("\n" ++ (repChar 60 '=' ++ "\n")))))))))

/-- The menu name of each pattern (the label of menu entries 1-15). -/
def patternName : Int → String
  | 1 => "Builder Pattern"
  | 2 => "Factory Pattern"
  | 3 => "Singleton Pattern"
  | 4 => "Observer Pattern"
  | 5 => "Strategy Pattern"
  | 6 => "Command Pattern"
  | 7 => "Decorator Pattern"
  | 8 => "Adapter Pattern"
  | 9 => "Facade Pattern"
  | 10 => "Template Method Pattern"
  | 11 => "Proxy Pattern"
  | 12 => "Visitor Pattern"
  | 13 => "Memento Pattern"
  | 14 => "Chain of Responsibility"
  | 15 => "State Pattern"
  | _ => ""

/-- Result of `runPatternDemo`: which demo procedures were invoked (in
order), the printed text, and the singleton slot afterwards. -/
structure DemoResult where
  demos : List Int
  out : String
  gconf : Option ConfigurationManager
deriving Repr, DecidableEq

/-- `DesignPatternsMenu::runPatternDemo`: the switch over `choice`. `g` is
the process-wide singleton slot and `addr` the runtime address the
singleton demo prints. -/
def runPatternDemo (choice : Int) (g : Option ConfigurationManager)
    (addr : String) : DemoResult :=
  let pre := "\n🚀 Running demo...\n\n"
  let post := "\n" ++ (repChar 60 '=' ++ "\n✅ Demo completed successfully!\n")
  match choice with
  | 1 => ⟨[1], pre ++ (demoBuilder_out ++ post), g⟩
  | 2 => ⟨[2], pre ++ (demoFactory_out ++ post), g⟩
  | 3 =>
    match demoSingleton_run g addr with
    | (s, g2) => ⟨[3], pre ++ (s ++ post), g2⟩
  | 4 => ⟨[4], pre ++ (demoObserver_out ++ post), g⟩
  | 5 => ⟨[5], pre ++ (demoStrategy_out ++ post), g⟩
  | 6 => ⟨[6], pre ++ (demoCommand_out ++ post), g⟩
  | 7 => ⟨[7], pre ++ (demoDecorator_out ++ post), g⟩
  | 8 => ⟨[8], pre ++ (demoAdapter_out ++ post), g⟩
  | 9 => ⟨[9], pre ++ (demoFacade_out ++ post), g⟩
  | 10 => ⟨[10], pre ++ (demoTemplateMethod_out ++ post), g⟩
  | 11 => ⟨[11], pre ++ (demoProxy_out ++ post), g⟩
  | 12 => ⟨[12], pre ++ (demoVisitor_out ++ post), g⟩
  | 13 => ⟨[13], pre ++ (demoMemento_out ++ post), g⟩
  | 14 => ⟨[14], pre ++ (demoChainOfResponsibility_out ++ post), g⟩
  | 15 => ⟨[15], pre ++ (demoState_out ++ post), g⟩
  | _ => ⟨[], pre ++ "❌ Invalid pattern selection!\n", g⟩

/-! ## Standard input (`std::cin`) -/

/-- `std::cin`: the pending characters and the fail bit. -/
structure IStream where
  chars : List Char
  fail : Bool
deriving Repr, DecidableEq

def isWsChar (c : Char) : Bool :=
  c == ' ' || c == '\t' || c == '\n' || c == '\r'

def dropWsL : List Char → List Char
  | [] => []
  | c :: cs => if isWsChar c then dropWsL cs else c :: cs

def takeDigitsL : List Char → List Char × List Char
  | [] => ([], [])
  | c :: cs =>
    if c.isDigit then
      match takeDigitsL cs with
      | (d, r) => (c :: d, r)
    else ([], c :: cs)

def digitsVal (acc : Nat) : List Char → Nat
  | [] => acc
  | c :: cs => digitsVal (acc * 10 + (c.toNat - 48)) cs

/-- `std::cin >> (int&)`: skip whitespace, then an optional sign and a digit
run; no digits sets the fail bit (the consumed whitespace and sign are not
put back, the offending character stays in the stream). -/
def readIntS (s : IStream) : Option Int × IStream :=
  if s.fail then (none, s)
  else
    match dropWsL s.chars with
    | '-' :: rest =>
      match takeDigitsL rest with
      | ([], _) => (none, ⟨rest, true⟩)
      | (ds, r) => (some (-(Int.ofNat (digitsVal 0 ds))), ⟨r, false⟩)
    | '+' :: rest =>
      match takeDigitsL rest with
      | ([], _) => (none, ⟨rest, true⟩)
      | (ds, r) => (some (Int.ofNat (digitsVal 0 ds)), ⟨r, false⟩)
    | cs =>
      match takeDigitsL cs with
      | ([], _) => (none, ⟨cs, true⟩)
      | (ds, r) => (some (Int.ofNat (digitsVal 0 ds)), ⟨r, false⟩)

def takeNonWsL : List Char → List Char × List Char
  | [] => ([], [])
  | c :: cs =>
    if isWsChar c then ([], c :: cs)
    else
      match takeNonWsL cs with
      | (t, r) => (c :: t, r)

/-- `std::cin >> (std::string&)`: skip whitespace, read a maximal non-space
run; an empty run (end of input) sets the fail bit. -/
def readTokenS (s : IStream) : Option String × IStream :=
  if s.fail then (none, s)
  else
    match takeNonWsL (dropWsL s.chars) with
    | ([], r) => (none, ⟨r, true⟩)
    | (t, r) => (some (String.mk t), ⟨r, false⟩)

/-- `std::cin.clear()`. -/
def clearS (s : IStream) : IStream := ⟨s.chars, false⟩

def dropLineL : List Char → List Char
  | [] => []
  | c :: cs => if c = '\n' then cs else dropLineL cs

/-- `std::cin.ignore(max, '\n')`: discard up to and including the next
newline; a no-op while the fail bit is set. -/
def ignoreLineS (s : IStream) : IStream :=
  if s.fail then s else ⟨dropLineL s.chars, false⟩

/-- `std::cin.get()`: consume one character (fails at end of input). -/
def getS (s : IStream) : IStream :=
  if s.fail then s
  else
    match s.chars with
    | [] => ⟨[], true⟩
    | _ :: cs => ⟨cs, false⟩

/-- `DesignPatternsMenu::clearInputBuffer`: `cin.clear()` then
`cin.ignore(numeric_limits<streamsize>::max(), '\n')`. -/
def clearInputBuffer (s : IStream) : IStream := ignoreLineS (clearS s)

/-- `DesignPatternsMenu::waitForEnter`'s stream effect. -/
def waitForEnterS (s : IStream) : IStream := getS (clearInputBuffer s)

def waitMsg : String := "\nPress Enter to continue..."

/-! ## The menu loop (`DesignPatternsMenu::run` and `main`) -/

/-- The continue check of `run`: the loop breaks when
`continueChoice != "y" && continueChoice != "Y" && continueChoice != "yes"
&& continueChoice != "Yes"`. -/
def breaksLoop (s : String) : Bool :=
  (s != "y") && ((s != "Y") && ((s != "yes") && (s != "Yes")))

/-- Characters of `s`, lowercased. -/
def lowChars (s : String) : List Char := s.data.map Char.toLower

/-- The continue check as §4.1 of the spec words it: an affirmative token is
`"y"` or `"yes"` compared case-insensitively. Written from the spec's
words, to compare against the code's `breaksLoop`. -/
def specAffirmative (s : String) : Bool :=
  lowChars s == "y".data || lowChars s == "yes".data

def chooseMsg : String := "\n🎯 Choose a pattern to explore (1-17): "

def invalidInputMsg : String := "❌ Invalid input! Please enter a number between 1-17.\n"

def invalidChoiceMsg : String := "❌ Invalid choice! Please select 1-17.\n"

def exitMsg : String :=
  "\n🎉 Thanks for using Design Patterns Interview Prep (C++ Edition)!\nGood luck with your interviews! 🚀\n"

def contPrompt : String := "\n🔄 Would you like to explore another pattern? (y/n): "

/-- Result of one iteration of `run`'s `while (true)` body. -/
structure IterResult where
  demos : List Int
  out : String
  stream : IStream
  gconf : Option ConfigurationManager
  keepGoing : Bool

/-- One iteration of the `while (true)` body of `DesignPatternsMenu::run`.
`g` is the singleton slot, `addr` the singleton demo's printed address and
`prevCont` the previous value of the `continueChoice` variable (it keeps
its old value, initially `""`, when `cin >> continueChoice` fails). -/
def menuIter (s0 : IStream) (g : Option ConfigurationManager) (addr : String)
    (prevCont : String) : IterResult :=
  let pre := headerOut ++ (menuOut ++ chooseMsg)
  let rc := readIntS s0
  match rc.1 with
  | none =>
    ⟨[], pre ++ (invalidInputMsg ++ waitMsg),
      waitForEnterS (clearInputBuffer rc.2), g, true⟩
  | some choice =>
    if choice = 16 then
      ⟨[], pre ++ (displayInterviewTips_out ++ waitMsg), waitForEnterS rc.2, g, true⟩
    else if choice = 17 then
      ⟨[], pre ++ exitMsg, rc.2, g, false⟩
    else if 1 ≤ choice ∧ choice ≤ 15 then
      let d := runPatternDemo choice g addr
      let rt := readTokenS rc.2
      let resp := rt.1.getD prevCont
      if breaksLoop resp then
        ⟨d.demos, pre ++ (d.out ++ (contPrompt ++ exitMsg)), rt.2, d.gconf, false⟩
      else
        ⟨d.demos, pre ++ (d.out ++ contPrompt), rt.2, d.gconf, true⟩
    else
      ⟨[], pre ++ (invalidChoiceMsg ++ waitMsg), waitForEnterS rc.2, g, true⟩

/-- `main`: `menu.run()` inside try/catch. `r` is the outcome of `run` --
`.ok` for a graceful return, `.error e` for an escaped C++ exception.
Returns the process exit status and the `std::cerr` text. -/
def mainRun (r : Except CppExn Unit) : Int × String :=
  match r with
  | .ok _ => (0, "")
  | .error e => (1, "❌ Fatal error: " ++ (e.what ++ "\n"))

/-! ## Helper lemmas -/

theorem containsStr_here (a p b : String) : ContainsStr (a ++ (p ++ b)) p :=
  ⟨a, b, rfl⟩

theorem containsStr_head (p b : String) : ContainsStr (p ++ b) p :=
  ⟨"", b, rfl⟩

theorem containsStr_append_left (a b p : String)
    (h : ContainsStr b p) : ContainsStr (a ++ b) p := by
  obtain ⟨x, y, hx⟩ := h
  exact ⟨a ++ x, y, by rw [hx, String.append_assoc]⟩

theorem containsStr_append_right (a b p : String)
    (h : ContainsStr a p) : ContainsStr (a ++ b) p := by
  obtain ⟨x, y, hx⟩ := h
  exact ⟨x, y ++ b, by rw [hx]; simp only [String.append_assoc]⟩

theorem startsWithChars_append (p a b : List Char)
    (h : startsWithChars p a = true) : startsWithChars p (a ++ b) = true := by
  induction p generalizing a with
  | nil => simp [startsWithChars]
  | cons x xs ih =>
    cases a with
    | nil => simp [startsWithChars] at h
    | cons y ys =>
      simp only [startsWithChars, Bool.and_eq_true] at h ⊢
      exact ⟨h.1, ih ys h.2⟩

theorem containsChars_nil_pat (l : List Char) : containsChars [] l = true := by
  induction l with
  | nil => rfl
  | cons c cs ih => simp [containsChars, startsWithChars]

theorem containsChars_append_right (p a b : List Char)
    (h : containsChars p a = true) : containsChars p (a ++ b) = true := by
  induction a with
  | nil =>
    simp only [containsChars, List.isEmpty_iff] at h
    subst h
    exact containsChars_nil_pat b
  | cons c cs ih =>
    simp only [containsChars, Bool.or_eq_true] at h ⊢
    rcases h with h | h
    · exact Or.inl (by simpa using startsWithChars_append p (c :: cs) b h)
    · exact Or.inr (ih h)

theorem containsChars_append_left (p a b : List Char)
    (h : containsChars p b = true) : containsChars p (a ++ b) = true := by
  induction a with
  | nil => simpa using h
  | cons c cs ih =>
    simp only [List.cons_append, containsChars, Bool.or_eq_true]
    exact Or.inr ih

theorem upChars_append (a b : String) :
    upChars (a ++ b) = upChars a ++ upChars b := by
  simp [upChars, String.data_append]

theorem containsCI_append_right (a b p : String)
    (h : containsCI a p = true) : containsCI (a ++ b) p = true := by
  unfold containsCI at h ⊢
  rw [upChars_append]
  exact containsChars_append_right _ _ _ h

theorem containsCI_append_left (a b p : String)
    (h : containsCI b p = true) : containsCI (a ++ b) p = true := by
  unfold containsCI at h ⊢
  rw [upChars_append]
  exact containsChars_append_left _ _ _ h

/-- Once the slot is populated, further `getInstance` calls construct
nothing, return the fixed address, and leave the slot untouched. -/
theorem runGets_some (n : Nat) (c : ConfigurationManager) :
    runGets n (some c) = (some c, List.replicate n instanceAddr, 0) := by
  induction n with
  | zero => rfl
  | succ m ih =>
    simp [runGets, ConfigurationManager.getInstance, ih, List.replicate_succ]

theorem dropWsL_length_le (l : List Char) : (dropWsL l).length ≤ l.length := by
  induction l with
  | nil => exact le_refl 0
  | cons c cs ih =>
    simp only [dropWsL]
    split
    · exact Nat.le_trans ih (Nat.le_succ _)
    · exact le_refl _

theorem takeDigitsL_rest_le (l : List Char) :
    (takeDigitsL l).2.length ≤ l.length := by
  induction l with
  | nil => exact le_refl 0
  | cons c cs ih =>
    simp only [takeDigitsL]
    split
    · cases h : takeDigitsL cs with
      | mk d r =>
        simp only [h] at ih ⊢
        exact Nat.le_trans ih (Nat.le_succ _)
    · exact le_refl _

theorem dropLineL_length_le (l : List Char) : (dropLineL l).length ≤ l.length := by
  induction l with
  | nil => exact le_refl 0
  | cons c cs ih =>
    simp only [dropLineL]
    split
    · exact Nat.le_succ _
    · exact Nat.le_trans ih (Nat.le_succ _)

theorem dropLineL_length_lt (l : List Char) (h : l ≠ []) :
    (dropLineL l).length < l.length := by
  cases l with
  | nil => exact absurd rfl h
  | cons c cs =>
    simp only [dropLineL]
    split
    · exact Nat.lt_succ_self _
    · exact Nat.lt_succ_of_le (dropLineL_length_le cs)

theorem getS_chars_le (s : IStream) : (getS s).chars.length ≤ s.chars.length := by
  unfold getS
  split
  · exact le_refl _
  · cases h : s.chars with
    | nil => simp [h]
    | cons c cs => simp [h]

theorem readIntS_chars_le (s : IStream) :
    (readIntS s).2.chars.length ≤ s.chars.length := by
  unfold readIntS
  split
  · exact le_refl _
  · have hws := dropWsL_length_le s.chars
    split
    next rest heq =>
      have hr : rest.length + 1 = (dropWsL s.chars).length := by rw [heq]; rfl
      split
      next =>
        show rest.length ≤ s.chars.length
        omega
      next ds r hne hd =>
        have h2 : r.length ≤ rest.length := by
          simpa [hd] using takeDigitsL_rest_le rest
        show r.length ≤ s.chars.length
        omega
    next rest heq =>
      have hr : rest.length + 1 = (dropWsL s.chars).length := by rw [heq]; rfl
      split
      next =>
        show rest.length ≤ s.chars.length
        omega
      next ds r hne hd =>
        have h2 : r.length ≤ rest.length := by
          simpa [hd] using takeDigitsL_rest_le rest
        show r.length ≤ s.chars.length
        omega
    next hne1 hne2 =>
      split
      next =>
        show (dropWsL s.chars).length ≤ s.chars.length
        omega
      next ds r hne hd =>
        have h2 : r.length ≤ (dropWsL s.chars).length := by
          simpa [hd] using takeDigitsL_rest_le (dropWsL s.chars)
        show r.length ≤ s.chars.length
        omega

theorem clearInputBuffer_eq (s : IStream) :
    clearInputBuffer s = ⟨dropLineL s.chars, false⟩ := by
  simp [clearInputBuffer, clearS, ignoreLineS]

theorem waitForEnterS_chars_le (s : IStream) :
    (waitForEnterS s).chars.length ≤ (dropLineL s.chars).length := by
  unfold waitForEnterS
  rw [clearInputBuffer_eq]
  exact getS_chars_le _

theorem breaksLoop_iff (r : String) :
    breaksLoop r = true ↔ (r ≠ "y" ∧ r ≠ "Y" ∧ r ≠ "yes" ∧ r ≠ "Yes") := by
  simp [breaksLoop, bne_iff_ne]

theorem breaksLoop_false_iff (r : String) :
    breaksLoop r = false ↔ (r = "y" ∨ r = "Y" ∨ r = "yes" ∨ r = "Yes") := by
  rw [← Bool.not_eq_true, breaksLoop_iff]
  tauto

/-! ## Claims -/

/-- C2: invoking `ConfigurationManager::getInstance` `n` times (each call
one atomic step, covering any interleaving of concurrent callers, per the
C++11 once-only guarantee on local statics) constructs the instance at most
once, returns the identical reference (the fixed static address) all `n`
times, and a field written through one returned reference is read back
through any other returned reference. -/
theorem singleton_getInstance_unique (n : Nat) (g : Option ConfigurationManager) :
    (runGets n g).2.1 = List.replicate n instanceAddr ∧
    (runGets n g).2.2 ≤ 1 ∧
    (∀ v : String, 1 ≤ n →
      (ConfigurationManager.getInstance (writeAppName (runGets n g).1 v)).1.getAppName
        = v) := by
  cases g with
  | some c =>
    rw [runGets_some]
    exact ⟨rfl, Nat.zero_le 1, fun v _ => rfl⟩
  | none =>
    cases n with
    | zero =>
      exact ⟨rfl, by decide, fun v h => absurd h (by decide)⟩
    | succ m =>
      have h1 : runGets (m + 1) none =
          (some ConfigurationManager.init,
           instanceAddr :: List.replicate m instanceAddr, 1) := by
        simp [runGets, ConfigurationManager.getInstance, runGets_some]
      rw [h1]
      exact ⟨(List.replicate_succ _ _).symm, le_refl 1, fun v _ => rfl⟩

theorem singleton_getInstance_unique_w :
    (runGets 2 none).2.1 = List.replicate 2 instanceAddr ∧
    (runGets 2 none).2.2 ≤ 1 ∧
    (ConfigurationManager.getInstance (writeAppName (runGets 2 none).1 "X")).1.getAppName
      = "X" :=
  ⟨(singleton_getInstance_unique 2 none).1,
   (singleton_getInstance_unique 2 none).2.1,
   (singleton_getInstance_unique 2 none).2.2 "X" (by decide)⟩

/-- C3: `createProcessor` maps `"credit_card"`, `"paypal"`, `"bitcoin"` to
processors whose `getProcessorName()` is `"Credit Card Processor"`,
`"PayPal Processor"`, `"Bitcoin Processor"` respectively, and rejects every
other string with the invalid-argument (unknown-type) error, returning no
processor. -/
theorem factory_createProcessor_spec :
    (createProcessor "credit_card" = .ok .creditCard ∧
     getProcessorName .creditCard = "Credit Card Processor" ∧
     createProcessor "paypal" = .ok .payPal ∧
     getProcessorName .payPal = "PayPal Processor" ∧
     createProcessor "bitcoin" = .ok .bitcoin ∧
     getProcessorName .bitcoin = "Bitcoin Processor") ∧
    ∀ s : String, s ≠ "credit_card" → s ≠ "paypal" → s ≠ "bitcoin" →
      createProcessor s =
        .error (.invalidArg ("Unknown payment processor type: " ++ s)) := by
  refine ⟨⟨rfl, rfl, rfl, rfl, rfl, rfl⟩, ?_⟩
  intro s h1 h2 h3
  unfold createProcessor
  rw [if_neg h1, if_neg h2, if_neg h3]

theorem factory_createProcessor_spec_w :
    createProcessor "stripe" =
      .error (.invalidArg ("Unknown payment processor type: " ++ "stripe")) :=
  factory_createProcessor_spec.2 "stripe" (by decide) (by decide) (by decide)

/-- C5: a request constructed through `HttpRequestBuilder` with method
`"POST"`, url `"https://api.example.com/users"`, one header, a non-empty
body and timeout 60 renders all five supplied values verbatim in
`toString()`. -/
theorem builder_toString_contains (hk hv bd : String) (h : bd ≠ "") :
    ∃ r : HttpRequest,
      ((((((HttpRequestBuilder.new.method "POST").bind
          (fun b => b.url "https://api.example.com/users")).bind
          (fun b => b.header hk hv)).bind
          (fun b => b.body bd)).bind
          (fun b => b.timeout 60)).map
          (fun b => b.build.1)) = .ok (some r) ∧
      ContainsStr r.toString "POST" ∧
      ContainsStr r.toString "https://api.example.com/users" ∧
      ContainsStr r.toString hk ∧
      ContainsStr r.toString hv ∧
      ContainsStr r.toString bd ∧
      ContainsStr r.toString "60" := by
  refine ⟨{ method_ := "POST", url_ := "https://api.example.com/users",
            body_ := bd, headers_ := [(hk, hv)], timeout_ := 60 },
          rfl, ?_, ?_, ?_, ?_, ?_, ?_⟩ <;>
    simp only [HttpRequest.toString, headersStr, if_neg h,
      show intStr 60 = "60" from rfl]
  · exact containsStr_here _ _ _
  · apply containsStr_append_left
    apply containsStr_append_left
    exact containsStr_here _ _ _
  · apply containsStr_append_left
    apply containsStr_append_left
    apply containsStr_append_left
    apply containsStr_append_left
    apply containsStr_append_left
    apply containsStr_append_left
    apply containsStr_append_left
    apply containsStr_append_right
    exact containsStr_here _ _ _
  · apply containsStr_append_left
    apply containsStr_append_left
    apply containsStr_append_left
    apply containsStr_append_left
    apply containsStr_append_left
    apply containsStr_append_left
    apply containsStr_append_left
    apply containsStr_append_right
    apply containsStr_append_left
    apply containsStr_append_left
    exact containsStr_here _ _ _
  · apply containsStr_append_left
    apply containsStr_append_left
    apply containsStr_append_left
    apply containsStr_append_left
    apply containsStr_append_left
    apply containsStr_append_left
    apply containsStr_append_left
    apply containsStr_append_left
    exact containsStr_here _ _ _
  · apply containsStr_append_left
    apply containsStr_append_left
    apply containsStr_append_left
    apply containsStr_append_left
    apply containsStr_append_left
    exact containsStr_head _ _

theorem builder_toString_contains_w :
    ∃ r : HttpRequest,
      ((((((HttpRequestBuilder.new.method "POST").bind
          (fun b => b.url "https://api.example.com/users")).bind
          (fun b => b.header "Content-Type" "application/json")).bind
          (fun b => b.body "hello")).bind
          (fun b => b.timeout 60)).map
          (fun b => b.build.1)) = .ok (some r) ∧
      ContainsStr r.toString "POST" ∧
      ContainsStr r.toString "https://api.example.com/users" ∧
      ContainsStr r.toString "Content-Type" ∧
      ContainsStr r.toString "application/json" ∧
      ContainsStr r.toString "hello" ∧
      ContainsStr r.toString "60" :=
  builder_toString_contains "Content-Type" "application/json" "hello" (by decide)

/-- C9: a graceful menu exit gives process status 0; an exception that
escapes to `main` (such as the factory's invalid-argument error) is caught
there, reported on `std::cerr`, and the process returns the non-zero
status 1. -/
theorem main_exit_codes (e : CppExn) :
    mainRun (.ok ()) = (0, "") ∧
    mainRun (.error e) = (1, "❌ Fatal error: " ++ (e.what ++ "\n")) ∧
    ContainsStr (mainRun (.error e)).2 e.what ∧
    (mainRun (.error e)).1 ≠ 0 := by
  refine ⟨rfl, rfl, ?_, one_ne_zero⟩
  show ContainsStr ("❌ Fatal error: " ++ (e.what ++ "\n")) e.what
  exact containsStr_here _ _ _

/-- C6: selecting 16 displays the interview-tips content and stays in the
loop without invoking a demo; selecting 17 leaves the loop without invoking
a demo. -/
theorem menu_tips_and_exit (s t : IStream) (g g2 : Option ConfigurationManager)
    (addr addr2 prevCont prevCont2 : String)
    (h16 : (readIntS s).1 = some 16) (h17 : (readIntS t).1 = some 17) :
    ((menuIter s g addr prevCont).demos = [] ∧
     (menuIter s g addr prevCont).keepGoing = true ∧
     ContainsStr (menuIter s g addr prevCont).out displayInterviewTips_out) ∧
    ((menuIter t g2 addr2 prevCont2).demos = [] ∧
     (menuIter t g2 addr2 prevCont2).keepGoing = false) := by
  constructor
  · simp only [menuIter, h16]
    exact ⟨by trivial, by trivial, containsStr_here _ _ _⟩
  · simp only [menuIter, h17]
    exact ⟨by trivial, by trivial⟩

theorem menu_tips_and_exit_w :
    ((menuIter ⟨"16\n".data, false⟩ none "0x0" "").demos = [] ∧
     (menuIter ⟨"16\n".data, false⟩ none "0x0" "").keepGoing = true ∧
     ContainsStr (menuIter ⟨"16\n".data, false⟩ none "0x0" "").out
       displayInterviewTips_out) ∧
    ((menuIter ⟨"17\n".data, false⟩ none "0x0" "").demos = [] ∧
     (menuIter ⟨"17\n".data, false⟩ none "0x0" "").keepGoing = false) :=
  menu_tips_and_exit ⟨"16\n".data, false⟩ ⟨"17\n".data, false⟩ none none
    "0x0" "0x0" "" "" (by decide) (by decide)

/-- C7: a non-numeric selection runs no demo, prints the invalid-input
message, stays in the loop, and the malformed input is discarded from the
stream -- the pending input strictly shrinks, so the dispatcher cannot
re-validate the same input forever. -/
theorem menu_nonnumeric_reprompts (s0 : IStream) (g : Option ConfigurationManager)
    (addr prevCont : String) (hne : s0.chars ≠ [])
    (hr : (readIntS s0).1 = none) :
    (menuIter s0 g addr prevCont).demos = [] ∧
    (menuIter s0 g addr prevCont).keepGoing = true ∧
    ContainsStr (menuIter s0 g addr prevCont).out invalidInputMsg ∧
    (menuIter s0 g addr prevCont).stream.chars.length < s0.chars.length := by
  simp only [menuIter, hr]
  refine ⟨by trivial, by trivial, containsStr_here _ _ _, ?_⟩
  show (waitForEnterS (clearInputBuffer (readIntS s0).2)).chars.length
    < s0.chars.length
  rw [clearInputBuffer_eq]
  have h5 := readIntS_chars_le s0
  have h6 : 0 < s0.chars.length := List.length_pos.mpr hne
  by_cases hc : (readIntS s0).2.chars = []
  · rw [hc]
    have hz : (waitForEnterS (⟨dropLineL [], false⟩ : IStream)).chars.length = 0 := rfl
    omega
  · have h2 : (waitForEnterS (⟨dropLineL (readIntS s0).2.chars, false⟩ : IStream)).chars.length
        ≤ (dropLineL (dropLineL (readIntS s0).2.chars)).length :=
      waitForEnterS_chars_le _
    have h3 := dropLineL_length_le (dropLineL (readIntS s0).2.chars)
    have h7 := dropLineL_length_lt _ hc
    omega

theorem menu_nonnumeric_reprompts_w :
    (menuIter ⟨"abc\n".data, false⟩ none "0x0" "").demos = [] ∧
    (menuIter ⟨"abc\n".data, false⟩ none "0x0" "").keepGoing = true ∧
    ContainsStr (menuIter ⟨"abc\n".data, false⟩ none "0x0" "").out invalidInputMsg ∧
    (menuIter ⟨"abc\n".data, false⟩ none "0x0" "").stream.chars.length
      < (⟨"abc\n".data, false⟩ : IStream).chars.length :=
  menu_nonnumeric_reprompts ⟨"abc\n".data, false⟩ none "0x0" ""
    (by decide) (by decide)

/-- C8: an integer selection outside [1,17] prints the invalid-choice
message, invokes no demo, leaves the singleton slot unchanged, and stays in
the loop (it is never fatal). -/
theorem menu_invalid_choice (s0 : IStream) (g : Option ConfigurationManager)
    (addr prevCont : String) (c : Int)
    (hr : (readIntS s0).1 = some c) (hc : c < 1 ∨ 17 < c) :
    (menuIter s0 g addr prevCont).demos = [] ∧
    (menuIter s0 g addr prevCont).keepGoing = true ∧
    (menuIter s0 g addr prevCont).gconf = g ∧
    ContainsStr (menuIter s0 g addr prevCont).out invalidChoiceMsg := by
  simp only [menuIter, hr]
  rw [if_neg (by omega : ¬(c = 16)), if_neg (by omega : ¬(c = 17)),
      if_neg (by omega : ¬(1 ≤ c ∧ c ≤ 15))]
  exact ⟨rfl, rfl, rfl, containsStr_here _ _ _⟩

theorem menu_invalid_choice_w :
    (menuIter ⟨"42\n".data, false⟩ none "0x0" "").demos = [] ∧
    (menuIter ⟨"42\n".data, false⟩ none "0x0" "").keepGoing = true ∧
    (menuIter ⟨"42\n".data, false⟩ none "0x0" "").gconf = none ∧
    ContainsStr (menuIter ⟨"42\n".data, false⟩ none "0x0" "").out invalidChoiceMsg :=
  menu_invalid_choice ⟨"42\n".data, false⟩ none "0x0" "" 42
    (by decide) (by decide)

/-- C10: `build()` moves the request out of the builder and leaves the
builder empty: a second `build()` on the same builder returns a null
pointer, and every setter called after `build()` dereferences a null
pointer. -/
theorem builder_build_moves_out (b : HttpRequestBuilder)
    (m u s k v : String) (t : Int) :
    (b.build.1 = b.request_ ∧ b.build.2.request_ = none) ∧
    b.build.2.build.1 = none ∧
    (b.build.2.method m = .error nullDeref ∧
     b.build.2.url u = .error nullDeref ∧
     b.build.2.body s = .error nullDeref ∧
     b.build.2.header k v = .error nullDeref ∧
     b.build.2.timeout t = .error nullDeref) :=
  ⟨⟨rfl, rfl⟩, rfl, rfl, rfl, rfl, rfl, rfl⟩

/-- C1: every selection in [1,15] invokes exactly the one matching demo
procedure, and that demo\'s printed output contains the pattern\'s menu name
(compared case-insensitively). -/
theorem dispatcher_demo_matches (c : Int) (g : Option ConfigurationManager)
    (addr : String) (h1 : 1 ≤ c) (h2 : c ≤ 15) :
    (runPatternDemo c g addr).demos = [c] ∧
    containsCI (runPatternDemo c g addr).out (patternName c) = true := by
  interval_cases c <;> rcases g with _ | c0 <;> refine ⟨rfl, ?_⟩ <;>
    apply containsCI_append_left <;> apply containsCI_append_right <;>
    first
      | (apply containsCI_append_right
         decide)
      | decide

theorem dispatcher_demo_matches_w :
    (runPatternDemo 3 none "0x0").demos = [3] ∧
    containsCI (runPatternDemo 3 none "0x0").out (patternName 3) = true :=
  dispatcher_demo_matches 3 none "0x0" (by decide) (by decide)

/-- C4 (amended): after a demo (selection in [1,15]), the loop continues iff
the response read is exactly one of "y", "Y", "yes", "Yes"; every other
response -- including the other casings of "yes", such as "YES" --
terminates the loop. -/
theorem menu_continue_tokens (s0 : IStream) (g : Option ConfigurationManager)
    (addr prevCont : String) (c : Int) (r : String)
    (hr : (readIntS s0).1 = some c) (hc : 1 ≤ c ∧ c ≤ 15)
    (ht : (readTokenS (readIntS s0).2).1 = some r) :
    (menuIter s0 g addr prevCont).keepGoing = true ↔
      (r = "y" ∨ r = "Y" ∨ r = "yes" ∨ r = "Yes") := by
  simp only [menuIter, hr]
  rw [if_neg (by omega : ¬(c = 16)), if_neg (by omega : ¬(c = 17)), if_pos hc, ht]
  simp only [Option.getD_some]
  by_cases hb : breaksLoop r = true
  · rw [if_pos hb]
    refine iff_of_false (by simp) ?_
    obtain ⟨n1, n2, n3, n4⟩ := (breaksLoop_iff r).mp hb
    rintro (h | h | h | h) <;> contradiction
  · rw [if_neg hb]
    exact iff_of_true rfl
      ((breaksLoop_false_iff r).mp (Bool.not_eq_true _ ▸ hb))

theorem menu_continue_tokens_w :
    (menuIter ⟨"5 yes".data, false⟩ none "0x0" "").keepGoing = true ↔
      ("yes" = "y" ∨ "yes" = "Y" ∨ "yes" = "yes" ∨ "yes" = "Yes") :=
  menu_continue_tokens ⟨"5 yes".data, false⟩ none "0x0" "" 5 "yes"
    (by decide) (by decide) (by decide)

/-- C4 counterexample: under the spec\'s case-insensitive reading, "YES" is
an affirmative token, yet the code\'s continue check terminates the loop on
it. -/
theorem menu_continue_case_counterexample :
    specAffirmative "YES" = true ∧
    (menuIter ⟨"1 YES".data, false⟩ none "0x0" "").keepGoing = false := by
  exact ⟨by decide, by decide⟩

end DP
